import Mathlib

/-!
Verification of the market-data engine of the futures trading framework
(source: `server.js`).  Modelling conventions, used throughout:
JavaScript numbers are exact rationals `ℚ` (the display-level roundings
`toFixed(n)` and `parseFloat` applied to a string that denotes a number are
the identity); kline payload fields that the server stores without parsing
are `String`; timestamps are `Int`; computations that can return `null` are
`Option`.
-/

namespace Trading

/-! ## Candle store (`handleBinanceMessage`, lines 1988-2011)

The server stores the OHLCV payload fields of a kline exactly as the raw
strings received on the wire; only the open/close times are numbers.  No
numeric parsing or validation happens at storage time. -/

/-- Stored candle shape `{t, o, h, l, c, v, T, isClosed}` built in
`handleBinanceMessage`.  Field `t` is the open time (the identity of the
candle inside a series), `T` the close time. -/
structure Candle where
  t : Int
  o : String
  h : String
  l : String
  c : String
  v : String
  T : Int
  isClosed : Bool
  deriving DecidableEq

/-- Replace the first stored candle whose open time equals the incoming
candle's open time.  This is what `findIndex(c => c.t === candle.t)`
followed by an indexed assignment does when the open time is present;
when no open time matches it returns the list unchanged. -/
def replaceFirstByT (c : Candle) : List Candle → List Candle
  | [] => []
  | x :: xs => if x.t = c.t then c :: xs else x :: replaceFirstByT c xs

/-- Ordering used by the `sort((a, b) => a.t - b.t)` call: ascending open
time.  JavaScript sort is stable, as is insertion sort. -/
def leT (a b : Candle) : Prop := a.t ≤ b.t

instance : DecidableRel leT := fun a b => inferInstanceAs (Decidable (a.t ≤ b.t))

instance : IsTotal Candle leT := ⟨fun a b => Int.le_total a.t b.t⟩

instance : IsTrans Candle leT := ⟨fun _ _ _ h1 h2 => le_trans h1 h2⟩

/-- Pre-sort part of the upsert in `handleBinanceMessage`: replace the entry
with the same open time when one exists, otherwise push the candle and, if
the series then has more than 100 entries, `shift()` (drop the first
element).  Note the trim happens before the sort. -/
def upsertRaw (s : List Candle) (c : Candle) : List Candle :=
  if s.any (fun x => x.t == c.t) then replaceFirstByT c s
  else if 100 < (s ++ [c]).length then (s ++ [c]).tail else s ++ [c]

/-- Full upsert performed by the kline handler on one series: replace or
push-and-trim, then sort ascending by open time. -/
def klineUpsert (s : List Candle) (c : Candle) : List Candle :=
  List.insertionSort leT (upsertRaw s c)

/-- Payload `k` of a Binance kline stream event, with the numeric-looking
fields still raw strings, exactly as consumed by `handleBinanceMessage`. -/
structure Kline where
  t : Int
  o : String
  h : String
  l : String
  c : String
  v : String
  T : Int
  x : Bool
  deriving DecidableEq

/-- Candle built verbatim from a kline event: every string field is copied,
none is parsed or validated. -/
def candleOfKline (k : Kline) : Candle :=
  ⟨k.t, k.o, k.h, k.l, k.c, k.v, k.T, k.x⟩

/-- Effect of one kline event on the stored series for its key. -/
def handleKlineEvent (store : List Candle) (k : Kline) : List Candle :=
  klineUpsert store (candleOfKline k)

/-- Candle with a given open time and empty payload strings, used to build
concrete series. -/
def mkC (n : Int) : Candle := ⟨n, "", "", "", "", "", n, true⟩

/-- Series of `n` candles with consecutive open times starting at `start`. -/
def mkSeries (start : Int) (n : Nat) : List Candle :=
  (List.range n).map (fun i => mkC (start + i))

/-! ### Helper lemmas about the upsert -/

theorem map_t_replaceFirstByT (c : Candle) :
    ∀ s : List Candle, (replaceFirstByT c s).map Candle.t = s.map Candle.t := by
  intro s
  induction s with
  | nil => rfl
  | cons x xs ih =>
      by_cases h : x.t = c.t <;> simp [replaceFirstByT, h, ih]

theorem length_replaceFirstByT (c : Candle) :
    ∀ s : List Candle, (replaceFirstByT c s).length = s.length := by
  intro s
  induction s with
  | nil => rfl
  | cons x xs ih =>
      by_cases h : x.t = c.t <;> simp [replaceFirstByT, h, ih]

theorem mem_replaceFirstByT (c : Candle) :
    ∀ s : List Candle, s.any (fun x => x.t == c.t) = true → c ∈ replaceFirstByT c s := by
  intro s
  induction s with
  | nil => intro h; simp at h
  | cons x xs ih =>
      intro h
      by_cases hx : x.t = c.t
      · simp [replaceFirstByT, hx]
      · have hxs : xs.any (fun x => x.t == c.t) = true := by
          simp [List.any_cons, hx] at h
          simpa [List.any_eq_true] using h
        simp [replaceFirstByT, hx]
        exact Or.inr (ih hxs)

theorem upsertRaw_map_nodup (s : List Candle) (c : Candle)
    (hnd : (s.map Candle.t).Nodup) : ((upsertRaw s c).map Candle.t).Nodup := by
  unfold upsertRaw
  by_cases hany : s.any (fun x => x.t == c.t) = true
  · rw [if_pos hany, map_t_replaceFirstByT]
    exact hnd
  · rw [if_neg hany]
    have hnotin : c.t ∉ s.map Candle.t := by
      intro hmem
      rcases List.mem_map.mp hmem with ⟨x, hx, hxt⟩
      exact hany (List.any_eq_true.mpr ⟨x, hx, by simp [hxt]⟩)
    have happ : ((s ++ [c]).map Candle.t).Nodup := by
      simp only [List.map_append, List.map_cons, List.map_nil]
      exact List.Nodup.append hnd (List.nodup_singleton _)
        (by simpa [List.disjoint_singleton] using hnotin)
    by_cases hlen : 100 < (s ++ [c]).length
    · rw [if_pos hlen]
      exact happ.sublist ((List.tail_sublist _).map Candle.t)
    · rw [if_neg hlen]
      exact happ

theorem upsertRaw_length (s : List Candle) (c : Candle)
    (hlen : s.length ≤ 100) : (upsertRaw s c).length ≤ 100 := by
  unfold upsertRaw
  by_cases hany : s.any (fun x => x.t == c.t) = true
  · rw [if_pos hany, length_replaceFirstByT]
    exact hlen
  · rw [if_neg hany]
    by_cases h1 : 100 < (s ++ [c]).length
    · rw [if_pos h1]
      simp [List.length_tail]
      omega
    · rw [if_neg h1]
      simp at h1 ⊢
      omega

/-- C1.  For every candle series satisfying the series invariants (unique
open times, at most 100 entries) and every incoming kline candle, the upsert
performed by the kline handler yields a series with strictly ascending open
times, no duplicate open times, and length at most 100. -/
theorem klineUpsert_ordered_bounded (s : List Candle) (c : Candle)
    (hnd : (s.map Candle.t).Nodup) (hlen : s.length ≤ 100) :
    (klineUpsert s c).Pairwise (fun a b => a.t < b.t) ∧
    ((klineUpsert s c).map Candle.t).Nodup ∧
    (klineUpsert s c).length ≤ 100 := by
  have hperm : List.Perm (klineUpsert s c) (upsertRaw s c) := List.perm_insertionSort leT _
  have hnd' : ((klineUpsert s c).map Candle.t).Nodup :=
    ((hperm.map Candle.t).nodup_iff).mpr (upsertRaw_map_nodup s c hnd)
  refine ⟨?_, hnd', ?_⟩
  · have hsorted : (klineUpsert s c).Pairwise leT :=
      List.sorted_insertionSort leT (upsertRaw s c)
    have hne : (klineUpsert s c).Pairwise (fun a b => a.t ≠ b.t) :=
      (List.pairwise_map).mp hnd'
    exact (hsorted.and hne).imp (fun h => lt_of_le_of_ne h.1 h.2)
  · rw [hperm.length_eq]
    exact upsertRaw_length s c hlen

/-- C1 witness: the invariant theorem applied to a concrete 3-candle series
and a fresh incoming candle. -/
theorem klineUpsert_ordered_bounded_witness :
    ((mkSeries 1 3).map Candle.t).Nodup ∧ (mkSeries 1 3).length ≤ 100 ∧
    ((klineUpsert (mkSeries 1 3) (mkC 7)).Pairwise (fun a b => a.t < b.t) ∧
     ((klineUpsert (mkSeries 1 3) (mkC 7)).map Candle.t).Nodup ∧
     (klineUpsert (mkSeries 1 3) (mkC 7)).length ≤ 100) :=
  ⟨by decide, by decide,
    klineUpsert_ordered_bounded (mkSeries 1 3) (mkC 7) (by decide) (by decide)⟩

/-- C9 counterexample.  A sorted series at capacity (open times 10..109) and
an incoming candle older than every stored one (open time 5): the incoming
candle survives the upsert and the oldest stored candle (open time 10) is the
one dropped — the opposite of what the claim states. -/
theorem klineUpsert_drops_head_cex :
    mkC 5 ∈ klineUpsert (mkSeries 10 100) (mkC 5) ∧
    mkC 10 ∉ klineUpsert (mkSeries 10 100) (mkC 5) := by
  decide

/-- C9 amended.  For a series at capacity whose open times do not contain the
incoming candle's, the upsert keeps a permutation of the stored tail plus the
incoming candle: the single dropped candle is always the first stored element
(the oldest stored candle when the series is sorted), never the incoming one,
because the code trims with `shift()` before sorting. -/
theorem klineUpsert_at_capacity (s : List Candle) (c : Candle)
    (hlen : s.length = 100) (hnew : ∀ x ∈ s, x.t ≠ c.t) :
    List.Perm (klineUpsert s c) (s.tail ++ [c]) := by
  have hany : ¬ s.any (fun x => x.t == c.t) = true := by
    simp only [List.any_eq_true, beq_iff_eq, not_exists]
    intro x hx
    exact hnew x hx.1 hx.2
  have htail : (s ++ [c]).tail = s.tail ++ [c] := by
    cases s with
    | nil => simp at hlen
    | cons a as => simp
  unfold klineUpsert upsertRaw
  rw [if_neg hany, if_pos (by simp [hlen]), htail]
  exact List.perm_insertionSort leT _

/-- C9 amended witness: the at-capacity theorem applied to the concrete
series with open times 10..109 and the incoming candle with open time 5. -/
theorem klineUpsert_at_capacity_witness :
    (mkSeries 10 100).length = 100 ∧
    List.Perm (klineUpsert (mkSeries 10 100) (mkC 5))
      ((mkSeries 10 100).tail ++ [mkC 5]) :=
  ⟨by decide, klineUpsert_at_capacity (mkSeries 10 100) (mkC 5) (by decide) (by decide)⟩

/-- Kline event whose open-price field is not a numeric string. -/
def kBad : Kline := ⟨1, "abc", "1", "1", "1", "1", 2, false⟩

/-- C5 counterexample.  A kline event whose price field `o` is the
unparseable string `abc` is not dropped: processing it changes the store,
and the candle carrying the unparseable value is stored. -/
theorem handleKline_stores_unparseable_cex :
    handleKlineEvent [] kBad ≠ [] ∧ candleOfKline kBad ∈ handleKlineEvent [] kBad := by
  decide

/-- C5 amended.  The kline handler performs no numeric validation at all:
whatever strings the event carries (parseable or not), the candle built
verbatim from the event is always present in the post-state.  Only frames
that fail the whole-message `JSON.parse` in the socket `message` callback are
dropped. -/
theorem handleKline_stores_raw (store : List Candle) (k : Kline) :
    candleOfKline k ∈ handleKlineEvent store k := by
  unfold handleKlineEvent klineUpsert
  rw [List.mem_insertionSort]
  unfold upsertRaw
  by_cases hany : store.any (fun x => x.t == (candleOfKline k).t) = true
  · rw [if_pos hany]
    exact mem_replaceFirstByT _ _ hany
  · rw [if_neg hany]
    by_cases hlen : 100 < (store ++ [candleOfKline k]).length
    · rw [if_pos hlen]
      cases store with
      | nil => simp at hlen
      | cons a as => simp
    · rw [if_neg hlen]
      simp

/-! ## Price aggregation (`calculateAggregatedPrice`, lines 244-277)

The per-exchange stores are initialised to 0 and `|| 0` defaults a missing
entry to 0, so an exchange that has never reported carries the price 0 and
is excluded by the strict positivity test below. -/

/-- Result of the aggregation: the published price and the list of
contributing exchange names.  The pass-through per-exchange echo fields of
the source object carry no aggregation content and are not modelled. -/
structure AggResult where
  price : ℚ
  sources : List String
  deriving DecidableEq

/-- Mirror of `calculateAggregatedPrice`: push each strictly positive
per-exchange price (and its name) in the fixed order Binance, Coinbase,
Kraken; with no positive price return `{price: 0, sources: []}`, otherwise
the sum of the pushed prices divided by their count (`toFixed(8)` is
display-level rounding, modelled as the identity). -/
def calculateAggregatedPrice (b cb k : ℚ) : AggResult :=
  let prices : List ℚ :=
    (if 0 < b then [b] else []) ++ (if 0 < cb then [cb] else []) ++
      (if 0 < k then [k] else [])
  let sources : List String :=
    (if 0 < b then ["Binance"] else []) ++ (if 0 < cb then ["Coinbase"] else []) ++
      (if 0 < k then ["Kraken"] else [])
  if prices.length = 0 then ⟨0, []⟩
  else ⟨prices.sum / (prices.length : ℚ), sources⟩

/-- Specification-side aggregate, written from the words of the spec: filter
the three (price, exchange) pairs down to the strictly positive prices, and
return their unweighted arithmetic mean together with the contributing
names; with no positive price return `{price: 0, sources: []}`. -/
def aggregateSpec (b cb k : ℚ) : AggResult :=
  let contrib := ([(b, "Binance"), (cb, "Coinbase"), (k, "Kraken")]).filter
    (fun p => 0 < p.1)
  if contrib = [] then ⟨0, []⟩
  else ⟨(contrib.map Prod.fst).sum / (contrib.length : ℚ), contrib.map Prod.snd⟩

/-- C2.  The aggregated ticker equals the spec-side aggregate: the price is
the unweighted mean of exactly the strictly positive per-exchange prices,
the sources are the contributing exchange names in the order Binance,
Coinbase, Kraken, the all-nonpositive case yields price 0 with no sources,
and a never-reporting exchange (price 0) is excluded rather than averaged. -/
theorem calculateAggregatedPrice_eq_spec (b cb k : ℚ) :
    calculateAggregatedPrice b cb k = aggregateSpec b cb k := by
  unfold calculateAggregatedPrice aggregateSpec
  by_cases hb : 0 < b <;> by_cases hc : 0 < cb <;> by_cases hk : 0 < k <;>
    simp [hb, hc, hk, List.filter]

/-! ## Technical indicator engine (`TechnicalIndicators`, lines 301-1013)

The analysis layer reads candles through `parseFloat` on every access; the
numeric view of a candle therefore carries exact rationals. -/

/-- Numeric view of a candle as consumed by the analysis code:
`parseFloat` of each OHLCV field. -/
structure NumCandle where
  t : Int
  o : ℚ
  h : ℚ
  l : ℚ
  c : ℚ
  v : ℚ
  deriving DecidableEq

instance : Inhabited NumCandle := ⟨⟨0, 0, 0, 0, 0, 0⟩⟩

/-- Value of `Math.max(...l)` for the nonempty lists the source applies it
to (0 for an empty list, a case the guarded source never reaches). -/
def listMax : List ℚ → ℚ
  | [] => 0
  | x :: xs => xs.foldl max x

/-- Value of `Math.min(...l)` for the nonempty lists the source applies it
to. -/
def listMin : List ℚ → ℚ
  | [] => 0
  | x :: xs => xs.foldl min x

/-- `SMA(data, period)`: null below `period` values, else the average of the
last `period` values (`slice(-period)`), divided by `period`. -/
def SMA (data : List ℚ) (period : Nat) : Option ℚ :=
  if data.length < period then none
  else some ((data.drop (data.length - period)).sum / (period : ℚ))

/-- `EMA(data, period)`: null below `period` values, else seed with the
simple average of the first `period` values and fold the exponential
recurrence with multiplier `2 / (period + 1)` over the rest. -/
def EMA (data : List ℚ) (period : Nat) : Option ℚ :=
  if data.length < period then none
  else some ((data.drop period).foldl
    (fun e x => (x - e) * (2 / ((period : ℚ) + 1)) + e)
    ((data.take period).sum / (period : ℚ)))

/-- `EMAArray(data, period)`: the running EMA values, seed first; empty
below `period` values. -/
def EMAArray (data : List ℚ) (period : Nat) : List ℚ :=
  if data.length < period then []
  else (data.drop period).scanl
    (fun e x => (x - e) * (2 / ((period : ℚ) + 1)) + e)
    ((data.take period).sum / (period : ℚ))

/-- Consecutive differences `closes[i] - closes[i-1]`, in order. -/
def diffs : List ℚ → List ℚ
  | a :: b :: rest => (b - a) :: diffs (b :: rest)
  | _ => []

/-- Initial gain/loss accumulation of `RSI` over the first `period`
differences: a nonnegative difference adds to the gains, a negative one adds
its absolute value to the losses. -/
def gainLossInit (changes : List ℚ) (period : Nat) : ℚ × ℚ :=
  (changes.take period).foldl
    (fun gl ch => if 0 ≤ ch then (gl.1 + ch, gl.2) else (gl.1, gl.2 + -ch)) (0, 0)

/-- One step of Wilder smoothing in `RSI`. -/
def wilderRSIStep (period : Nat) (gl : ℚ × ℚ) (ch : ℚ) : ℚ × ℚ :=
  if 0 ≤ ch then
    ((gl.1 * ((period : ℚ) - 1) + ch) / (period : ℚ), gl.2 * ((period : ℚ) - 1) / (period : ℚ))
  else
    (gl.1 * ((period : ℚ) - 1) / (period : ℚ), (gl.2 * ((period : ℚ) - 1) + -ch) / (period : ℚ))

/-- Average gain and average loss of `RSI` after the initial averages and
the Wilder smoothing over the remaining differences. -/
def rsiAvgs (closes : List ℚ) (period : Nat) : ℚ × ℚ :=
  ((diffs closes).drop period).foldl (wilderRSIStep period)
    ((gainLossInit (diffs closes) period).1 / (period : ℚ),
     (gainLossInit (diffs closes) period).2 / (period : ℚ))

/-- `RSI(closes, period)`: null below `period + 1` closes; 100 when the
smoothed average loss is 0; else `100 - 100 / (1 + avgGain / avgLoss)`. -/
def RSI (closes : List ℚ) (period : Nat) : Option ℚ :=
  if closes.length < period + 1 then none
  else if (rsiAvgs closes period).2 = 0 then some 100
  else some (100 - 100 / (1 + (rsiAvgs closes period).1 / (rsiAvgs closes period).2))

/-- Output record of `MACD`. -/
structure MACDr where
  macd : ℚ
  signal : ℚ
  histogram : ℚ
  trend : String
  deriving DecidableEq

/-- `MACD(closes, fast, slow, signalPeriod)`: null below `slow +
signalPeriod` closes; MACD line is the fast EMA array offset by
`slow - fast` minus the slow EMA array; signal line is the EMA array of the
MACD line; last values classified into a trend label. -/
def MACD (closes : List ℚ) (fastPeriod slowPeriod signalPeriod : Nat) : Option MACDr :=
  if closes.length < slowPeriod + signalPeriod then none
  else
    let fastEMA := EMAArray closes fastPeriod
    let slowEMA := EMAArray closes slowPeriod
    let macdLine := List.zipWith (fun f s => f - s)
      (fastEMA.drop (slowPeriod - fastPeriod)) slowEMA
    let signalLine := EMAArray macdLine signalPeriod
    let macd := macdLine.getLastD 0
    let signal := signalLine.getLastD 0
    let trend :=
      if macd > signal ∧ macd > 0 then "bullish"
      else if macd < signal ∧ macd < 0 then "bearish"
      else if macd > signal then "bullish_crossover"
      else if macd < signal then "bearish_crossover"
      else "neutral"
    some ⟨macd, signal, macd - signal, trend⟩

/-- Output record of `Stochastic`. -/
structure Stochr where
  k : ℚ
  d : ℚ
  signal : String
  deriving DecidableEq

/-- `Stochastic(highs, lows, closes, kPeriod, dPeriod)`: null below
`kPeriod + dPeriod` closes; per index a `%K` value from the rolling
`kPeriod`-bar high/low window (50 when the window is flat), `%D` the average
of the last `dPeriod` `%K` values, and a bucketed signal label. -/
def Stochastic (highs lows closes : List ℚ) (kPeriod dPeriod : Nat) : Option Stochr :=
  if closes.length < kPeriod + dPeriod then none
  else
    let kValues := (List.range' (kPeriod - 1) (closes.length - (kPeriod - 1))).map
      (fun i =>
        let hh := listMax ((highs.drop (i + 1 - kPeriod)).take kPeriod)
        let ll := listMin ((lows.drop (i + 1 - kPeriod)).take kPeriod)
        if hh = ll then 50 else (closes.getD i 0 - ll) / (hh - ll) * 100)
    let dValue := (kValues.drop (kValues.length - dPeriod)).sum / (dPeriod : ℚ)
    let kValue := kValues.getLastD 0
    let signal :=
      if kValue > 80 ∧ kValue < dValue then "overbought_reversal"
      else if kValue < 20 ∧ kValue > dValue then "oversold_reversal"
      else if kValue > 80 then "overbought"
      else if kValue < 20 then "oversold"
      else if kValue > dValue then "bullish"
      else "bearish"
    some ⟨kValue, dValue, signal⟩

/-- True ranges per bar (index 1 onward):
`max(h-l, |h - prevClose|, |l - prevClose|)`. -/
def trueRangesOf (highs lows closes : List ℚ) : List ℚ :=
  (List.range' 1 (closes.length - 1)).map (fun i =>
    max (highs.getD i 0 - lows.getD i 0)
      (max |highs.getD i 0 - closes.getD (i - 1) 0| |lows.getD i 0 - closes.getD (i - 1) 0|))

/-- Positive directional movements per bar. -/
def plusDMsOf (highs lows : List ℚ) (n : Nat) : List ℚ :=
  (List.range' 1 (n - 1)).map (fun i =>
    let upMove := highs.getD i 0 - highs.getD (i - 1) 0
    let downMove := lows.getD (i - 1) 0 - lows.getD i 0
    if upMove > downMove ∧ upMove > 0 then upMove else 0)

/-- Negative directional movements per bar. -/
def minusDMsOf (highs lows : List ℚ) (n : Nat) : List ℚ :=
  (List.range' 1 (n - 1)).map (fun i =>
    let upMove := highs.getD i 0 - highs.getD (i - 1) 0
    let downMove := lows.getD (i - 1) 0 - lows.getD i 0
    if downMove > upMove ∧ downMove > 0 then downMove else 0)

/-- Wilder cumulative smoothing `sum = sum - sum/period + x`, seeded with
the sum of the first `period` values; 0 below `period` values. -/
def wilderSmooth (data : List ℚ) (period : Nat) : ℚ :=
  if data.length < period then 0
  else (data.drop period).foldl (fun acc x => acc - acc / (period : ℚ) + x)
    ((data.take period).sum)

/-- Output record of `ADX`. -/
structure ADXr where
  adx : ℚ
  plusDI : ℚ
  minusDI : ℚ
  trend : String
  direction : String
  deriving DecidableEq

/-- `ADX(highs, lows, closes, period)`: null below `2 * period` closes; DI
lines from Wilder-smoothed directional movement over smoothed true range,
single (unsmoothed) DX reported as ADX, plus bucketed labels.  A division by
zero yields 0 here where JavaScript yields NaN; no verified property reads
past the length guard. -/
def ADX (highs lows closes : List ℚ) (period : Nat) : Option ADXr :=
  if closes.length < 2 * period then none
  else
    let smoothTR := wilderSmooth (trueRangesOf highs lows closes) period
    let smoothPlus := wilderSmooth (plusDMsOf highs lows closes.length) period
    let smoothMinus := wilderSmooth (minusDMsOf highs lows closes.length) period
    let plusDI := smoothPlus / smoothTR * 100
    let minusDI := smoothMinus / smoothTR * 100
    let adx := |plusDI - minusDI| / (plusDI + minusDI) * 100
    let trend :=
      if adx > 50 then "very_strong"
      else if adx > 25 then "strong"
      else if adx > 20 then "moderate"
      else "weak"
    let direction :=
      if plusDI > minusDI then "bullish"
      else if minusDI > plusDI then "bearish"
      else "neutral"
    some ⟨adx, plusDI, minusDI, trend, direction⟩

/-- Rational stand-in for `Math.sqrt`, exact on perfect squares.  No
verified property depends on its value; it only keeps the Bollinger band
computation total and executable. -/
def ratSqrt (x : ℚ) : ℚ :=
  (Nat.sqrt (x.num.toNat * x.den) : ℚ) / (x.den : ℚ)

/-- Output record of `BollingerBands`. -/
structure BBr where
  upper : ℚ
  middle : ℚ
  lower : ℚ
  percentB : ℚ
  bandwidth : ℚ
  signal : String
  deriving DecidableEq

/-- `BollingerBands(closes, period, stdDev)`: null below `period` closes;
SMA of the last `period` closes plus/minus `stdDev` population standard
deviations, with `%B` and bandwidth and a bucketed signal label. -/
def BollingerBands (closes : List ℚ) (period : Nat) (stdDev : ℚ) : Option BBr :=
  if closes.length < period then none
  else
    let sma := (closes.drop (closes.length - period)).sum / (period : ℚ)
    let slice := closes.drop (closes.length - period)
    let sd := ratSqrt ((slice.map (fun v => (v - sma) ^ 2)).sum / (period : ℚ))
    let upper := sma + sd * stdDev
    let lower := sma - sd * stdDev
    let currentPrice := closes.getLastD 0
    let percentB := (currentPrice - lower) / (upper - lower)
    let signal :=
      if percentB > 1 then "overbought"
      else if percentB < 0 then "oversold"
      else if percentB > 4 / 5 then "upper_zone"
      else if percentB < 1 / 5 then "lower_zone"
      else "neutral"
    some ⟨upper, sma, lower, percentB, (upper - lower) / sma * 100, signal⟩

/-- Output record of `ATR`. -/
structure ATRr where
  atr : ℚ
  atrPercent : ℚ
  volatility : String
  deriving DecidableEq

/-- `ATR(highs, lows, closes, period)`: null below `period + 1` closes; the
average of the first `period` true ranges smoothed by Wilder's recurrence
over the rest, an ATR-as-percent-of-price value and a volatility bucket. -/
def ATR (highs lows closes : List ℚ) (period : Nat) : Option ATRr :=
  if closes.length < period + 1 then none
  else
    let trs := trueRangesOf highs lows closes
    let atr := (trs.drop period).foldl
      (fun a tr => (a * ((period : ℚ) - 1) + tr) / (period : ℚ))
      ((trs.take period).sum / (period : ℚ))
    let atrPercent := atr / closes.getLastD 0 * 100
    let volatility :=
      if atrPercent > 5 then "very_high"
      else if atrPercent > 3 then "high"
      else if atrPercent > 3 / 2 then "moderate"
      else "low"
    some ⟨atr, atrPercent, volatility⟩

/-- Value a JavaScript relational comparison uses for a possibly-null
number: `null` coerces to 0. -/
def jsNum (o : Option ℚ) : ℚ := o.getD 0

/-- Sentiment summary produced by `generateSummary`. -/
structure Summary where
  sentiment : String
  bullishSignals : Nat
  bearishSignals : Nat
  strength : String
  recommendation : String
  deriving DecidableEq

/-- `generateSummary(closes, highs, lows)`: tally bullish and bearish votes
from RSI, MACD trend, Stochastic reversal signal, ADX-qualified direction,
Bollinger signal and the EMA(20)/EMA(50) ordering, then bucket the vote
share at 70%/30%.  Null indicator values coerce to 0 in the relational
comparisons, as in JavaScript. -/
def generateSummary (closes highs lows : List ℚ) : Summary :=
  let rsiVote : Nat × Nat :=
    if jsNum (RSI closes 14) < 30 then (1, 0)
    else if jsNum (RSI closes 14) > 70 then (0, 1) else (0, 0)
  let macdVote : Nat × Nat :=
    match MACD closes 12 26 9 with
    | some m =>
        if m.trend == "bullish" || m.trend == "bullish_crossover" then (1, 0)
        else if m.trend == "bearish" || m.trend == "bearish_crossover" then (0, 1)
        else (0, 0)
    | none => (0, 0)
  let stochVote : Nat × Nat :=
    match Stochastic highs lows closes 14 3 with
    | some sc =>
        if sc.signal == "oversold_reversal" then (1, 0)
        else if sc.signal == "overbought_reversal" then (0, 1) else (0, 0)
    | none => (0, 0)
  let adxVote : Nat × Nat :=
    match ADX highs lows closes 14 with
    | some a =>
        if a.direction == "bullish" && a.trend != "weak" then (1, 0)
        else if a.direction == "bearish" && a.trend != "weak" then (0, 1)
        else (0, 0)
    | none => (0, 0)
  let bbVote : Nat × Nat :=
    match BollingerBands closes 20 2 with
    | some bb =>
        if bb.signal == "oversold" then (1, 0)
        else if bb.signal == "overbought" then (0, 1) else (0, 0)
    | none => (0, 0)
  let emaVote : Nat × Nat :=
    if jsNum (EMA closes 20) > jsNum (EMA closes 50) then (1, 0)
    else if jsNum (EMA closes 20) < jsNum (EMA closes 50) then (0, 1) else (0, 0)
  let bullishSignals :=
    rsiVote.1 + macdVote.1 + stochVote.1 + adxVote.1 + bbVote.1 + emaVote.1
  let bearishSignals :=
    rsiVote.2 + macdVote.2 + stochVote.2 + adxVote.2 + bbVote.2 + emaVote.2
  let total := bullishSignals + bearishSignals
  let sentiment :=
    if 0 < total then
      if (bullishSignals : ℚ) / (total : ℚ) > 7 / 10 then "BULLISH"
      else if (bullishSignals : ℚ) / (total : ℚ) < 3 / 10 then "BEARISH"
      else "MIXED"
    else "NEUTRAL"
  let strengthN :=
    if 0 < total then
      if (bullishSignals : ℚ) / (total : ℚ) > 7 / 10 then bullishSignals
      else if (bullishSignals : ℚ) / (total : ℚ) < 3 / 10 then bearishSignals
      else max bullishSignals bearishSignals
    else 0
  let denom := if total = 0 then 1 else total
  { sentiment := sentiment
    bullishSignals := bullishSignals
    bearishSignals := bearishSignals
    strength := toString strengthN ++ "/" ++ toString denom
    recommendation :=
      if sentiment == "BULLISH" then "Consider LONG"
      else if sentiment == "BEARISH" then "Consider SHORT"
      else "Wait for clarity" }

/-- Composite indicator snapshot of `calculateAll`.  The `obv`,
`volumeProfile` and `elliottWave` sub-results are computed independently of
the fields below and are consulted by none of the verified properties; they
are not modelled. -/
structure Indicators where
  rsi : Option ℚ
  macd : Option MACDr
  stochastic : Option Stochr
  ema20 : Option ℚ
  ema50 : Option ℚ
  sma20 : Option ℚ
  adx : Option ADXr
  bollingerBands : Option BBr
  atr : Option ATRr
  summary : Summary
  deriving DecidableEq

/-- `calculateAll(candles)`: null below 30 candles, else the snapshot of
every indicator over the closes/highs/lows arrays of the series. -/
def calculateAll (candles : List NumCandle) : Option Indicators :=
  if candles.length < 30 then none
  else
    let closes := candles.map (fun c => c.c)
    let highs := candles.map (fun c => c.h)
    let lows := candles.map (fun c => c.l)
    some
      { rsi := RSI closes 14
        macd := MACD closes 12 26 9
        stochastic := Stochastic highs lows closes 14 3
        ema20 := EMA closes 20
        ema50 := EMA closes 50
        sma20 := SMA closes 20
        adx := ADX highs lows closes 14
        bollingerBands := BollingerBands closes 20 2
        atr := ATR highs lows closes 14
        summary := generateSummary closes highs lows }

/-! ### RSI is bounded (C3) -/

theorem gainLossInit_aux_nonneg :
    ∀ (l : List ℚ) (gl : ℚ × ℚ), 0 ≤ gl.1 → 0 ≤ gl.2 →
      0 ≤ (l.foldl
        (fun gl ch => if 0 ≤ ch then (gl.1 + ch, gl.2) else (gl.1, gl.2 + -ch)) gl).1 ∧
      0 ≤ (l.foldl
        (fun gl ch => if 0 ≤ ch then (gl.1 + ch, gl.2) else (gl.1, gl.2 + -ch)) gl).2 := by
  intro l
  induction l with
  | nil => intro gl h1 h2; exact ⟨h1, h2⟩
  | cons ch rest ih =>
      intro gl h1 h2
      simp only [List.foldl_cons]
      by_cases hch : 0 ≤ ch
      · exact ih _ (by simp [hch]; linarith) (by simp [hch]; linarith)
      · exact ih _ (by simp [hch]; linarith) (by simp [hch]; linarith)

theorem gainLossInit_nonneg (changes : List ℚ) (period : Nat) :
    0 ≤ (gainLossInit changes period).1 ∧ 0 ≤ (gainLossInit changes period).2 :=
  gainLossInit_aux_nonneg _ (0, 0) le_rfl le_rfl

theorem wilderFold_nonneg (period : Nat) (hp : 1 ≤ period) :
    ∀ (l : List ℚ) (gl : ℚ × ℚ), 0 ≤ gl.1 → 0 ≤ gl.2 →
      0 ≤ (l.foldl (wilderRSIStep period) gl).1 ∧
      0 ≤ (l.foldl (wilderRSIStep period) gl).2 := by
  have hp1 : (1 : ℚ) ≤ (period : ℚ) := by exact_mod_cast hp
  have hp0 : (0 : ℚ) ≤ (period : ℚ) := by linarith
  have hpm : (0 : ℚ) ≤ (period : ℚ) - 1 := by linarith
  intro l
  induction l with
  | nil => intro gl h1 h2; exact ⟨h1, h2⟩
  | cons ch rest ih =>
      intro gl h1 h2
      simp only [List.foldl_cons]
      by_cases hch : 0 ≤ ch
      · refine ih _ ?_ ?_
        · simp only [wilderRSIStep, if_pos hch]
          exact div_nonneg (by nlinarith) hp0
        · simp only [wilderRSIStep, if_pos hch]
          exact div_nonneg (by nlinarith) hp0
      · refine ih _ ?_ ?_
        · simp only [wilderRSIStep, if_neg hch]
          exact div_nonneg (by nlinarith) hp0
        · simp only [wilderRSIStep, if_neg hch]
          have : 0 ≤ -ch := by linarith [lt_of_not_le hch]
          exact div_nonneg (by nlinarith) hp0

theorem rsiAvgs_nonneg (closes : List ℚ) (period : Nat) (hp : 1 ≤ period) :
    0 ≤ (rsiAvgs closes period).1 ∧ 0 ≤ (rsiAvgs closes period).2 := by
  have hp0 : (0 : ℚ) ≤ (period : ℚ) := by positivity
  have hinit := gainLossInit_nonneg (diffs closes) period
  exact wilderFold_nonneg period hp _ _
    (div_nonneg hinit.1 hp0) (div_nonneg hinit.2 hp0)

/-- C3.  On any closes array of length at least 15, `RSI(closes, 14)`
returns a defined value lying in `[0, 100]`, and the value is exactly 100
whenever the Wilder-smoothed average loss is 0. -/
theorem RSI_defined_bounded (closes : List ℚ) (h : 15 ≤ closes.length) :
    ∃ r, RSI closes 14 = some r ∧ 0 ≤ r ∧ r ≤ 100 ∧
      ((rsiAvgs closes 14).2 = 0 → r = 100) := by
  have hguard : ¬ closes.length < 14 + 1 := by omega
  have hnn := rsiAvgs_nonneg closes 14 (by norm_num)
  by_cases h0 : (rsiAvgs closes 14).2 = 0
  · refine ⟨100, ?_, by norm_num, by norm_num, fun _ => rfl⟩
    unfold RSI
    rw [if_neg hguard, if_pos h0]
  · refine ⟨100 - 100 / (1 + (rsiAvgs closes 14).1 / (rsiAvgs closes 14).2), ?_, ?_, ?_,
      fun hc => absurd hc h0⟩
    · unfold RSI
      rw [if_neg hguard, if_neg h0]
    · have hl : 0 < (rsiAvgs closes 14).2 := lt_of_le_of_ne hnn.2 (Ne.symm h0)
      have hd : 0 ≤ (rsiAvgs closes 14).1 / (rsiAvgs closes 14).2 :=
        div_nonneg hnn.1 hnn.2
      have : 100 / (1 + (rsiAvgs closes 14).1 / (rsiAvgs closes 14).2) ≤ 100 :=
        div_le_self (by norm_num) (by linarith)
      linarith
    · have hl : 0 < (rsiAvgs closes 14).2 := lt_of_le_of_ne hnn.2 (Ne.symm h0)
      have hd : 0 ≤ (rsiAvgs closes 14).1 / (rsiAvgs closes 14).2 :=
        div_nonneg hnn.1 hnn.2
      have : 0 < 100 / (1 + (rsiAvgs closes 14).1 / (rsiAvgs closes 14).2) :=
        div_pos (by norm_num) (by linarith)
      linarith

/-- Concrete 15-element closes array used to witness the RSI bound. -/
def closes15 : List ℚ :=
  [1, 2, 3, 4, 5, 6, 7, 8, 9, 10, 11, 12, 13, 14, 15]

/-- C3 witness: the RSI bound applied to a concrete 15-close series. -/
theorem RSI_defined_bounded_witness :
    15 ≤ closes15.length ∧
    ∃ r, RSI closes15 14 = some r ∧ 0 ≤ r ∧ r ≤ 100 ∧
      ((rsiAvgs closes15 14).2 = 0 → r = 100) :=
  ⟨by decide, RSI_defined_bounded closes15 (by decide)⟩

/-! ## Pattern recognition engine (`PatternRecognizer.analyzeCandle`,
lines 1020-1244, and the multi-bar detectors through line 1653)

A pattern is identified by its name, type and strength; the free-text
`description` field is presentational and not modelled. -/

/-- Candlestick or chart pattern `{name, type, strength}` (the source field
`type` is `ptype` here because of the Lean keyword). -/
structure Pattern where
  name : String
  ptype : String
  strength : String
  deriving DecidableEq

/-- Doji branch: body under 10% of the range, sub-classified by the wick
ratio 2.5. -/
def dojiBlock (bodySize upperWick lowerWick totalRange : ℚ) : List Pattern :=
  if bodySize < totalRange * (1 / 10) then
    if upperWick > lowerWick * (5 / 2) then [⟨"Gravestone Doji", "bearish", "medium"⟩]
    else if lowerWick > upperWick * (5 / 2) then [⟨"Dragonfly Doji", "bullish", "medium"⟩]
    else [⟨"Doji", "neutral", "weak"⟩]
  else []

/-- Average close of the up-to-3 candles preceding `index`
(`slice(max(0, index - 3), index)` divided by the slice length). -/
def avgPrevClose (index : Nat) (allCandles : List NumCandle) : ℚ :=
  let prevCandles := (allCandles.drop (index - 3)).take (index - (index - 3))
  (prevCandles.map (fun c => c.c)).sum / (prevCandles.length : ℚ)

/-- Hammer / Hanging Man branch. -/
def hammerBlock (candle : NumCandle) (index : Nat) (allCandles : List NumCandle)
    (bodySize upperWick lowerWick totalRange : ℚ) : List Pattern :=
  if lowerWick > bodySize * 2 ∧ upperWick < bodySize * (1 / 2) ∧
      bodySize > totalRange * (1 / 10) then
    if 3 ≤ index then
      if candle.c < avgPrevClose index allCandles then [⟨"Hammer", "bullish", "strong"⟩]
      else [⟨"Hanging Man", "bearish", "medium"⟩]
    else []
  else []

/-- Shooting Star / Inverted Hammer branch. -/
def shootingStarBlock (candle : NumCandle) (index : Nat) (allCandles : List NumCandle)
    (bodySize upperWick lowerWick totalRange : ℚ) : List Pattern :=
  if upperWick > bodySize * 2 ∧ lowerWick < bodySize * (1 / 2) ∧
      bodySize > totalRange * (1 / 10) then
    if 3 ≤ index then
      if candle.c > avgPrevClose index allCandles then [⟨"Shooting Star", "bearish", "strong"⟩]
      else [⟨"Inverted Hammer", "bullish", "medium"⟩]
    else []
  else []

/-- Marubozu branch: both wicks under 5% of the range and body over 90%. -/
def marubozuBlock (candle : NumCandle)
    (bodySize upperWick lowerWick totalRange : ℚ) : List Pattern :=
  if upperWick < totalRange * (1 / 20) ∧ lowerWick < totalRange * (1 / 20) ∧
      bodySize > totalRange * (9 / 10) then
    if candle.c > candle.o then [⟨"Bullish Marubozu", "bullish", "strong"⟩]
    else [⟨"Bearish Marubozu", "bearish", "strong"⟩]
  else []

/-- Engulfing branch against the previous candle (`index > 0`); the source
runs both direction checks in sequence, so the block is their
concatenation. -/
def engulfingBlock (candle : NumCandle) (index : Nat) (allCandles : List NumCandle)
    (bodySize : ℚ) : List Pattern :=
  if 0 < index then
    let prev := allCandles.getD (index - 1) default
    if bodySize > |prev.c - prev.o| * (13 / 10) then
      (if candle.c > candle.o ∧ ¬ prev.c > prev.o ∧ candle.o ≤ prev.c ∧ candle.c ≥ prev.o
        then [⟨"Bullish Engulfing", "bullish", "strong"⟩] else []) ++
      (if ¬ candle.c > candle.o ∧ prev.c > prev.o ∧ candle.o ≥ prev.c ∧ candle.c ≤ prev.o
        then [⟨"Bearish Engulfing", "bearish", "strong"⟩] else [])
    else []
  else []

/-- Morning Star branch (`index >= 2`). -/
def morningStarBlock (candle : NumCandle) (index : Nat) (allCandles : List NumCandle)
    (bodySize : ℚ) : List Pattern :=
  if 2 ≤ index then
    let candle1 := allCandles.getD (index - 2) default
    let candle2 := allCandles.getD (index - 1) default
    if candle1.c < candle1.o ∧
        |candle2.c - candle2.o| < |candle1.c - candle1.o| * (3 / 10) ∧
        candle.c > candle.o ∧ bodySize > |candle1.c - candle1.o| * (1 / 2) then
      [⟨"Morning Star", "bullish", "strong"⟩]
    else []
  else []

/-- Evening Star branch (`index >= 2`). -/
def eveningStarBlock (candle : NumCandle) (index : Nat) (allCandles : List NumCandle)
    (bodySize : ℚ) : List Pattern :=
  if 2 ≤ index then
    let candle1 := allCandles.getD (index - 2) default
    let candle2 := allCandles.getD (index - 1) default
    if candle1.c > candle1.o ∧
        |candle2.c - candle2.o| < |candle1.c - candle1.o| * (3 / 10) ∧
        ¬ candle.c > candle.o ∧ bodySize > |candle1.c - candle1.o| * (1 / 2) then
      [⟨"Evening Star", "bearish", "strong"⟩]
    else []
  else []

/-- Volume-confirmation branch (`index >= 5`): volume above twice the
trailing 5-candle average. -/
def volumeBlock (candle : NumCandle) (index : Nat) (allCandles : List NumCandle) :
    List Pattern :=
  if 5 ≤ index then
    let avgVolume := ((((allCandles.drop (index - 5)).take 5).map (fun c => c.v)).sum) / 5
    if candle.v > avgVolume * 2 then [⟨"High Volume", "confirmation", "strong"⟩]
    else []
  else []

/-- Least-squares slope used by the wedge detectors (`calculateSlope`).
The degenerate denominator cases (fewer than 2 points) divide by zero and
yield 0 here; every caller is guarded far above that size. -/
def calculateSlope (values : List ℚ) : ℚ :=
  let n := values.length
  let sumX : ℚ := ((List.range n).map (fun i => (i : ℚ))).sum
  let sumY := values.sum
  let sumXY := (values.enum.map (fun p => (p.1 : ℚ) * p.2)).sum
  let sumX2 : ℚ := ((List.range n).map (fun i => ((i : ℚ)) ^ 2)).sum
  ((n : ℚ) * sumXY - sumX * sumY) / ((n : ℚ) * sumX2 - sumX * sumX)

/-- Local peaks of `detectDoubleTop`: strictly above the two neighbours on
each side. -/
def doublePeaksOf (highs : List ℚ) : List (Nat × ℚ) :=
  (List.range' 2 (highs.length - 4)).filterMap (fun i =>
    if highs.getD i 0 > highs.getD (i - 1) 0 ∧ highs.getD i 0 > highs.getD (i - 2) 0 ∧
        highs.getD i 0 > highs.getD (i + 1) 0 ∧ highs.getD i 0 > highs.getD (i + 2) 0
    then some (i, highs.getD i 0) else none)

/-- Local troughs of `detectDoubleBottom`. -/
def doubleTroughsOf (lows : List ℚ) : List (Nat × ℚ) :=
  (List.range' 2 (lows.length - 4)).filterMap (fun i =>
    if lows.getD i 0 < lows.getD (i - 1) 0 ∧ lows.getD i 0 < lows.getD (i - 2) 0 ∧
        lows.getD i 0 < lows.getD (i + 1) 0 ∧ lows.getD i 0 < lows.getD (i + 2) 0
    then some (i, lows.getD i 0) else none)

/-- `detectDoubleTop`: two peaks within 2% and at least 5 candles apart
inside a 30-candle lookback; confirmed below the neckline (the minimum of
the highs between the peaks), forming within 2% above it. -/
def detectDoubleTop (index : Nat) (allCandles : List NumCandle) : Option Pattern :=
  if index < 15 then none
  else
    let lookback := min 30 index
    let candles := (allCandles.drop (index - lookback)).take (lookback + 1)
    let highs := candles.map (fun c => c.h)
    let closes := candles.map (fun c => c.c)
    let peaks := doublePeaksOf highs
    if peaks.length < 2 then none
    else
      let peak1 := peaks.getD (peaks.length - 2) (0, 0)
      let peak2 := peaks.getD (peaks.length - 1) (0, 0)
      if |peak1.2 - peak2.2| > peak1.2 * (1 / 50) then none
      else if (peak2.1 : Int) - (peak1.1 : Int) < 5 then none
      else
        let neckline := listMin ((highs.drop peak1.1).take (peak2.1 - peak1.1 + 1))
        let currentClose := closes.getLastD 0
        if currentClose < neckline then some ⟨"Double Top", "bearish", "strong"⟩
        else if currentClose < neckline * (51 / 50) then
          some ⟨"Double Top Forming", "bearish", "medium"⟩
        else none

/-- `detectDoubleBottom`: mirror of the double top on lows, with the
neckline taken as the maximum of the highs between the troughs. -/
def detectDoubleBottom (index : Nat) (allCandles : List NumCandle) : Option Pattern :=
  if index < 15 then none
  else
    let lookback := min 30 index
    let candles := (allCandles.drop (index - lookback)).take (lookback + 1)
    let lows := candles.map (fun c => c.l)
    let closes := candles.map (fun c => c.c)
    let troughs := doubleTroughsOf lows
    if troughs.length < 2 then none
    else
      let trough1 := troughs.getD (troughs.length - 2) (0, 0)
      let trough2 := troughs.getD (troughs.length - 1) (0, 0)
      if |trough1.2 - trough2.2| > trough1.2 * (1 / 50) then none
      else if (trough2.1 : Int) - (trough1.1 : Int) < 5 then none
      else
        let neckline := listMax
          (((candles.drop trough1.1).take (trough2.1 - trough1.1 + 1)).map (fun c => c.h))
        let currentClose := closes.getLastD 0
        if currentClose > neckline then some ⟨"Double Bottom", "bullish", "strong"⟩
        else if currentClose > neckline * (49 / 50) then
          some ⟨"Double Bottom Forming", "bullish", "medium"⟩
        else none

/-- Peaks of `detectHeadAndShoulders`: at least as high as the three
neighbours on each side. -/
def hsPeaksOf (highs : List ℚ) : List (Nat × ℚ) :=
  (List.range' 3 (highs.length - 6)).filterMap (fun i =>
    if highs.getD i 0 ≥ listMax ((highs.drop (i - 3)).take 3) ∧
        highs.getD i 0 ≥ listMax ((highs.drop (i + 1)).take 3)
    then some (i, highs.getD i 0) else none)

/-- Troughs of `detectInverseHeadAndShoulders`. -/
def hsTroughsOf (lows : List ℚ) : List (Nat × ℚ) :=
  (List.range' 3 (lows.length - 6)).filterMap (fun i =>
    if lows.getD i 0 ≤ listMin ((lows.drop (i - 3)).take 3) ∧
        lows.getD i 0 ≤ listMin ((lows.drop (i + 1)).take 3)
    then some (i, lows.getD i 0) else none)

/-- `detectHeadAndShoulders`: scan peak triples from the most recent
backwards; head above both shoulders, shoulders within 5%, neckline the max
of the connecting lows; confirmed below the neckline, forming within 2%
above it for a recent right shoulder. -/
def detectHeadAndShoulders (index : Nat) (allCandles : List NumCandle) : Option Pattern :=
  if index < 20 then none
  else
    let lookback := min 40 index
    let candles := (allCandles.drop (index - lookback)).take (lookback + 1)
    let highs := candles.map (fun c => c.h)
    let closes := candles.map (fun c => c.c)
    let peaks := hsPeaksOf highs
    if peaks.length < 3 then none
    else
      ((List.range (peaks.length - 2)).reverse).findSome? (fun i =>
        let ls := peaks.getD i (0, 0)
        let head := peaks.getD (i + 1) (0, 0)
        let rs := peaks.getD (i + 2) (0, 0)
        if head.2 ≤ ls.2 ∨ head.2 ≤ rs.2 then none
        else if |ls.2 - rs.2| > ls.2 * (1 / 20) then none
        else
          let lowLSH := listMin
            (((candles.drop ls.1).take (head.1 - ls.1 + 1)).map (fun c => c.l))
          let lowHRS := listMin
            (((candles.drop head.1).take (rs.1 - head.1 + 1)).map (fun c => c.l))
          let neckline := max lowLSH lowHRS
          let currentClose := closes.getLastD 0
          if currentClose < neckline then some ⟨"Head & Shoulders", "bearish", "strong"⟩
          else if currentClose < neckline * (51 / 50) ∧
              (rs.1 : Int) > (peaks.length : Int) - 5 then
            some ⟨"Head & Shoulders Forming", "bearish", "medium"⟩
          else none)

/-- `detectInverseHeadAndShoulders`: mirror of the head and shoulders on
troughs, with the neckline the min of the connecting highs. -/
def detectInverseHeadAndShoulders (index : Nat) (allCandles : List NumCandle) :
    Option Pattern :=
  if index < 20 then none
  else
    let lookback := min 40 index
    let candles := (allCandles.drop (index - lookback)).take (lookback + 1)
    let lows := candles.map (fun c => c.l)
    let closes := candles.map (fun c => c.c)
    let troughs := hsTroughsOf lows
    if troughs.length < 3 then none
    else
      ((List.range (troughs.length - 2)).reverse).findSome? (fun i =>
        let ls := troughs.getD i (0, 0)
        let head := troughs.getD (i + 1) (0, 0)
        let rs := troughs.getD (i + 2) (0, 0)
        if head.2 ≥ ls.2 ∨ head.2 ≥ rs.2 then none
        else if |ls.2 - rs.2| > ls.2 * (1 / 20) then none
        else
          let highLSH := listMax
            (((candles.drop ls.1).take (head.1 - ls.1 + 1)).map (fun c => c.h))
          let highHRS := listMax
            (((candles.drop head.1).take (rs.1 - head.1 + 1)).map (fun c => c.h))
          let neckline := min highLSH highHRS
          let currentClose := closes.getLastD 0
          if currentClose > neckline then some ⟨"Inverse H&S", "bullish", "strong"⟩
          else if currentClose > neckline * (49 / 50) ∧
              (rs.1 : Int) > (troughs.length : Int) - 5 then
            some ⟨"Inverse H&S Forming", "bullish", "medium"⟩
          else none)

/-- `detectRisingWedge`: both regression slopes positive and converging,
price within 2% of the projected upper trendline. -/
def detectRisingWedge (index : Nat) (allCandles : List NumCandle) : Option Pattern :=
  if index < 12 then none
  else
    let lookback := min 20 index
    let candles := (allCandles.drop (index - lookback)).take (lookback + 1)
    let highs := candles.map (fun c => c.h)
    let lows := candles.map (fun c => c.l)
    let highSlope := calculateSlope highs
    let lowSlope := calculateSlope lows
    if highSlope > 0 ∧ lowSlope > 0 ∧ lowSlope > highSlope * (1 / 2) then
      if highs.getLastD 0 - lows.getLastD 0 <
          (highs.headD 0 - lows.headD 0) * (7 / 10) then
        let projectedHigh := highs.headD 0 + highSlope * ((highs.length : ℚ) - 1)
        if |highs.getLastD 0 - projectedHigh| / projectedHigh < 1 / 50 then
          some ⟨"Rising Wedge", "bearish", "strong"⟩
        else none
      else none
    else none

/-- `detectFallingWedge`: mirror of the rising wedge. -/
def detectFallingWedge (index : Nat) (allCandles : List NumCandle) : Option Pattern :=
  if index < 12 then none
  else
    let lookback := min 20 index
    let candles := (allCandles.drop (index - lookback)).take (lookback + 1)
    let highs := candles.map (fun c => c.h)
    let lows := candles.map (fun c => c.l)
    let highSlope := calculateSlope highs
    let lowSlope := calculateSlope lows
    if highSlope < 0 ∧ lowSlope < 0 ∧ highSlope < lowSlope * (1 / 2) then
      if highs.getLastD 0 - lows.getLastD 0 <
          (highs.headD 0 - lows.headD 0) * (7 / 10) then
        let projectedLow := lows.headD 0 + lowSlope * ((lows.length : ℚ) - 1)
        if |lows.getLastD 0 - projectedLow| / projectedLow < 1 / 50 then
          some ⟨"Falling Wedge", "bullish", "strong"⟩
        else none
      else none
    else none

/-- `detectVReversal`: a V bottom (sharp drop with a 70% recovery) checked
first, then an inverted V top, each confirmed by a 1.5x volume spike at the
pivot. -/
def detectVReversal (index : Nat) (allCandles : List NumCandle) : Option Pattern :=
  if index < 10 then none
  else
    let lookback := min 15 index
    let candles := (allCandles.drop (index - lookback)).take (lookback + 1)
    let closes := candles.map (fun c => c.c)
    let volumes := candles.map (fun c => c.v)
    let minIndex := closes.indexOf (listMin closes)
    let maxIndex := closes.indexOf (listMax closes)
    let avgVolume := volumes.sum / (volumes.length : ℚ)
    let vBottom :=
      if 2 < minIndex ∧ (minIndex : Int) < (closes.length : Int) - 3 then
        let dropBefore := closes.take (minIndex + 1)
        let recoveryAfter := closes.drop minIndex
        let dropPercent :=
          (dropBefore.headD 0 - dropBefore.getLastD 0) / dropBefore.headD 0 * 100
        let recoveryPercent :=
          (recoveryAfter.getLastD 0 - recoveryAfter.headD 0) / recoveryAfter.headD 0 * 100
        if dropPercent > 5 ∧ recoveryPercent > dropPercent * (7 / 10) then
          if volumes.getD minIndex 0 > avgVolume * (3 / 2) then
            some ⟨"V-Bottom Reversal", "bullish", "strong"⟩
          else none
        else none
      else none
    match vBottom with
    | some p => some p
    | none =>
        if 2 < maxIndex ∧ (maxIndex : Int) < (closes.length : Int) - 3 then
          let rallyBefore := closes.take (maxIndex + 1)
          let selloffAfter := closes.drop maxIndex
          let rallyPercent :=
            (rallyBefore.getLastD 0 - rallyBefore.headD 0) / rallyBefore.headD 0 * 100
          let selloffPercent :=
            (selloffAfter.headD 0 - selloffAfter.getLastD 0) / selloffAfter.headD 0 * 100
          if rallyPercent > 5 ∧ selloffPercent > rallyPercent * (7 / 10) then
            if volumes.getD maxIndex 0 > avgVolume * (3 / 2) then
              some ⟨"V-Top Reversal", "bearish", "strong"⟩
            else none
          else none
        else none

/-- `analyzeCandle(candle, index, allCandles)`: empty on a zero-range
candle, else the concatenation of every detector branch in source order. -/
def analyzeCandle (candle : NumCandle) (index : Nat) (allCandles : List NumCandle) :
    List Pattern :=
  let bodySize := |candle.c - candle.o|
  let upperWick := candle.h - max candle.o candle.c
  let lowerWick := min candle.o candle.c - candle.l
  let totalRange := candle.h - candle.l
  if totalRange = 0 then []
  else
    dojiBlock bodySize upperWick lowerWick totalRange ++
    hammerBlock candle index allCandles bodySize upperWick lowerWick totalRange ++
    shootingStarBlock candle index allCandles bodySize upperWick lowerWick totalRange ++
    marubozuBlock candle bodySize upperWick lowerWick totalRange ++
    engulfingBlock candle index allCandles bodySize ++
    morningStarBlock candle index allCandles bodySize ++
    eveningStarBlock candle index allCandles bodySize ++
    volumeBlock candle index allCandles ++
    (detectDoubleTop index allCandles).toList ++
    (detectDoubleBottom index allCandles).toList ++
    (detectHeadAndShoulders index allCandles).toList ++
    (detectInverseHeadAndShoulders index allCandles).toList ++
    (detectRisingWedge index allCandles).toList ++
    (detectFallingWedge index allCandles).toList ++
    (detectVReversal index allCandles).toList

/-! ### Zero-range candles (C10) and Gravestone Doji uniqueness (C6) -/

/-- C10.  A candle whose high equals its low has zero total range, so
`analyzeCandle` returns the empty pattern list from the early guard and no
range-dividing detector is evaluated. -/
theorem analyzeCandle_zero_range (candle : NumCandle) (index : Nat)
    (allCandles : List NumCandle) (h : candle.h = candle.l) :
    analyzeCandle candle index allCandles = [] := by
  simp only [analyzeCandle]
  rw [if_pos (by rw [h, sub_self])]

/-- Flat candle used to witness the zero-range guard. -/
def flatC : NumCandle := ⟨0, 1, 1, 1, 1, 1⟩

/-- C10 witness: the zero-range guard applied to a concrete flat candle. -/
theorem analyzeCandle_zero_range_witness :
    flatC.h = flatC.l ∧ analyzeCandle flatC 0 [] = [] :=
  ⟨rfl, analyzeCandle_zero_range flatC 0 [] rfl⟩

theorem filter_gravestone_engulfing (candle : NumCandle) (i : Nat)
    (a : List NumCandle) (b : ℚ) :
    (engulfingBlock candle i a b).filter (fun p => p.name == "Gravestone Doji") = [] := by
  simp only [engulfingBlock]
  split_ifs <;> simp

theorem filter_gravestone_morningStar (candle : NumCandle) (i : Nat)
    (a : List NumCandle) (b : ℚ) :
    (morningStarBlock candle i a b).filter (fun p => p.name == "Gravestone Doji") = [] := by
  simp only [morningStarBlock]
  split_ifs <;> simp

theorem filter_gravestone_eveningStar (candle : NumCandle) (i : Nat)
    (a : List NumCandle) (b : ℚ) :
    (eveningStarBlock candle i a b).filter (fun p => p.name == "Gravestone Doji") = [] := by
  simp only [eveningStarBlock]
  split_ifs <;> simp

/-- C6 counterexample data: candle 4 is a textbook Gravestone Doji whose
tiny bullish body also engulfs the flat previous candle. -/
def gcC : NumCandle := ⟨4, 100, 120, 100, 101, 0⟩

/-- Flat previous candle of the C6 counterexample. -/
def prevC : NumCandle := ⟨3, 201 / 2, 201 / 2, 201 / 2, 201 / 2, 0⟩

/-- Filler candle of the C6 counterexample. -/
def fillC (n : Int) : NumCandle := ⟨n, 100, 100, 100, 100, 0⟩

/-- Five-candle series of the C6 counterexample. -/
def cs6ex : List NumCandle := [fillC 0, fillC 1, fillC 2, prevC, gcC]

theorem detectDoubleTop_small (i : Nat) (cs : List NumCandle) (h : i < 15) :
    detectDoubleTop i cs = none := by
  unfold detectDoubleTop
  rw [if_pos h]

theorem detectDoubleBottom_small (i : Nat) (cs : List NumCandle) (h : i < 15) :
    detectDoubleBottom i cs = none := by
  unfold detectDoubleBottom
  rw [if_pos h]

theorem detectHeadAndShoulders_small (i : Nat) (cs : List NumCandle) (h : i < 20) :
    detectHeadAndShoulders i cs = none := by
  unfold detectHeadAndShoulders
  rw [if_pos h]

theorem detectInverseHeadAndShoulders_small (i : Nat) (cs : List NumCandle) (h : i < 20) :
    detectInverseHeadAndShoulders i cs = none := by
  unfold detectInverseHeadAndShoulders
  rw [if_pos h]

theorem detectRisingWedge_small (i : Nat) (cs : List NumCandle) (h : i < 12) :
    detectRisingWedge i cs = none := by
  unfold detectRisingWedge
  rw [if_pos h]

theorem detectFallingWedge_small (i : Nat) (cs : List NumCandle) (h : i < 12) :
    detectFallingWedge i cs = none := by
  unfold detectFallingWedge
  rw [if_pos h]

theorem detectVReversal_small (i : Nat) (cs : List NumCandle) (h : i < 10) :
    detectVReversal i cs = none := by
  unfold detectVReversal
  rw [if_pos h]

/-- Full evaluation of the analysis on the counterexample series: the
Gravestone Doji and a Bullish Engulfing fire together. -/
theorem analyzeCandle_cs6ex_eval :
    analyzeCandle gcC 4 cs6ex =
      [⟨"Gravestone Doji", "bearish", "medium"⟩,
       ⟨"Bullish Engulfing", "bullish", "strong"⟩] := by
  simp only [analyzeCandle]
  rw [if_neg (by norm_num [gcC]), detectDoubleTop_small 4 cs6ex (by norm_num),
    detectDoubleBottom_small 4 cs6ex (by norm_num),
    detectHeadAndShoulders_small 4 cs6ex (by norm_num),
    detectInverseHeadAndShoulders_small 4 cs6ex (by norm_num),
    detectRisingWedge_small 4 cs6ex (by norm_num),
    detectFallingWedge_small 4 cs6ex (by norm_num),
    detectVReversal_small 4 cs6ex (by norm_num)]
  norm_num [dojiBlock, hammerBlock, shootingStarBlock, marubozuBlock, engulfingBlock,
    morningStarBlock, eveningStarBlock, volumeBlock, avgPrevClose, gcC, prevC, fillC,
    cs6ex, List.getD]

/-- C6 counterexample.  On this 5-candle series, candle 4 satisfies the
Gravestone Doji premises (body under 10% of the range, upper wick more than
2.5 times the lower wick) yet `analyzeCandle` emits two patterns, not
exactly one: a Bullish Engulfing fires alongside the Gravestone Doji. -/
theorem analyzeCandle_gravestone_not_unique_cex :
    |gcC.c - gcC.o| < (gcC.h - gcC.l) * (1 / 10) ∧
    gcC.h - max gcC.o gcC.c > (min gcC.o gcC.c - gcC.l) * (5 / 2) ∧
    cs6ex.length = 5 ∧ cs6ex[4]? = some gcC ∧
    (analyzeCandle gcC 4 cs6ex).length = 2 := by
  refine ⟨by norm_num [gcC], by norm_num [gcC], rfl, rfl, ?_⟩
  rw [analyzeCandle_cs6ex_eval]
  rfl

/-- C6 amended.  On every 5-candle series whose candle 4 has body under 10%
of its range and upper wick above 2.5 times its lower wick, `analyzeCandle`
at index 4 emits exactly one pattern named Gravestone Doji, with type
bearish and strength medium; multi-candle detectors (engulfing, star
patterns) may add further, differently named patterns alongside it. -/
theorem analyzeCandle_gravestone_unique (cs : List NumCandle) (c : NumCandle)
    (h5 : cs.length = 5) (h4 : cs[4]? = some c)
    (hbody : |c.c - c.o| < (c.h - c.l) * (1 / 10))
    (hwick : c.h - max c.o c.c > (min c.o c.c - c.l) * (5 / 2)) :
    (analyzeCandle c 4 cs).filter (fun p => p.name == "Gravestone Doji")
      = [⟨"Gravestone Doji", "bearish", "medium"⟩] := by
  have habs : (0 : ℚ) ≤ |c.c - c.o| := abs_nonneg _
  have hrange : 0 < c.h - c.l := by nlinarith
  have h10 : ¬ (|c.c - c.o| > (c.h - c.l) * (1 / 10)) := by linarith
  have h90 : ¬ (|c.c - c.o| > (c.h - c.l) * (9 / 10)) := by nlinarith
  have hdoji : dojiBlock (|c.c - c.o|) (c.h - max c.o c.c) (min c.o c.c - c.l)
      (c.h - c.l) = [⟨"Gravestone Doji", "bearish", "medium"⟩] := by
    unfold dojiBlock
    rw [if_pos hbody, if_pos hwick]
  have hham : hammerBlock c 4 cs (|c.c - c.o|) (c.h - max c.o c.c)
      (min c.o c.c - c.l) (c.h - c.l) = [] := by
    unfold hammerBlock
    rw [if_neg (fun hcond => h10 hcond.2.2)]
  have hss : shootingStarBlock c 4 cs (|c.c - c.o|) (c.h - max c.o c.c)
      (min c.o c.c - c.l) (c.h - c.l) = [] := by
    unfold shootingStarBlock
    rw [if_neg (fun hcond => h10 hcond.2.2)]
  have hmar : marubozuBlock c (|c.c - c.o|) (c.h - max c.o c.c)
      (min c.o c.c - c.l) (c.h - c.l) = [] := by
    unfold marubozuBlock
    rw [if_neg (fun hcond => h90 hcond.2.2)]
  have hvol : volumeBlock c 4 cs = [] := by
    unfold volumeBlock
    rw [if_neg (by norm_num)]
  simp only [analyzeCandle]
  rw [if_neg (ne_of_gt hrange)]
  simp only [List.filter_append, hdoji, hham, hss, hmar, hvol,
    detectDoubleTop_small 4 cs (by norm_num), detectDoubleBottom_small 4 cs (by norm_num),
    detectHeadAndShoulders_small 4 cs (by norm_num),
    detectInverseHeadAndShoulders_small 4 cs (by norm_num),
    detectRisingWedge_small 4 cs (by norm_num), detectFallingWedge_small 4 cs (by norm_num),
    detectVReversal_small 4 cs (by norm_num), filter_gravestone_engulfing,
    filter_gravestone_morningStar, filter_gravestone_eveningStar]
  simp

/-- C6 amended witness: the uniqueness theorem applied to the concrete
counterexample series, where the filtered list is the single Gravestone
Doji even though a second pattern is present. -/
theorem analyzeCandle_gravestone_unique_witness :
    cs6ex.length = 5 ∧ cs6ex[4]? = some gcC ∧
    (analyzeCandle gcC 4 cs6ex).filter (fun p => p.name == "Gravestone Doji")
      = [⟨"Gravestone Doji", "bearish", "medium"⟩] :=
  ⟨rfl, rfl,
    analyzeCandle_gravestone_unique cs6ex gcC rfl rfl (by norm_num [gcC]) (by norm_num [gcC])⟩

/-! ## Decision engine (`PatternRecognizer.generateDecision`, lines
1655-1867)

The `reasoning` string list and the `indicatorSignals` echo are
presentational and not modelled; every field the trading levels of the
decision depend on is. -/

/-- Trading decision `{action, confidence, entry, stopLoss, targets,
riskReward}`. -/
structure Decision where
  action : String
  confidence : String
  entry : Option ℚ
  stopLoss : Option ℚ
  target1 : Option ℚ
  target2 : Option ℚ
  target3 : Option ℚ
  riskReward : Option String
  deriving DecidableEq

/-- Pattern query `patterns.some(p => p.type === ty && p.strength === st)`. -/
def hasPat (patterns : List Pattern) (ty st : String) : Bool :=
  patterns.any (fun p => p.ptype == ty && p.strength == st)

/-- Volume-confirmation query `patterns.some(p => p.name === 'High Volume')`. -/
def hasVolConfirm (patterns : List Pattern) : Bool :=
  patterns.any (fun p => p.name == "High Volume")

/-- Sentiment the decision code reads from the indicator summary; when no
indicators are available the source never compares it against anything, so
the empty string (equal to no sentiment label) models that case. -/
def sentimentOf (indicators : Option Indicators) : String :=
  match indicators with
  | some ind => ind.summary.sentiment
  | none => ""

/-- First two branches of the boost/conflict else-if chain. -/
def boostOf (patterns : List Pattern) (indicators : Option Indicators) : Bool :=
  ((hasPat patterns "bullish" "strong" || hasPat patterns "bullish" "medium") &&
    sentimentOf indicators == "BULLISH") ||
  ((hasPat patterns "bearish" "strong" || hasPat patterns "bearish" "medium") &&
    sentimentOf indicators == "BEARISH")

/-- Last two branches of the boost/conflict else-if chain (reached only when
neither boost branch fired). -/
def conflictOf (patterns : List Pattern) (indicators : Option Indicators) : Bool :=
  !boostOf patterns indicators &&
  (((hasPat patterns "bullish" "strong" || hasPat patterns "bullish" "medium") &&
      sentimentOf indicators == "BEARISH") ||
    ((hasPat patterns "bearish" "strong" || hasPat patterns "bearish" "medium") &&
      sentimentOf indicators == "BULLISH"))

/-- Confidence ladder of the LONG branch, downgraded on conflict. -/
def longConfidence (strongB mediumB volC boost conflict : Bool) : String :=
  let c0 :=
    if strongB && volC && boost then "high"
    else if strongB && (volC || boost) then "high"
    else if strongB then "medium"
    else if mediumB && (volC || boost) then "medium"
    else "low"
  if conflict then (if c0 == "high" then "medium" else "low") else c0

/-- LONG decision of the bullish branch: entry 1% of the range above the
high; stop 1.5 ATR below the low when ATR is available
(`indicators?.atr`), else 15% of the range below the low; targets at 1.5,
2.5 and 4 times the risk; fixed risk/reward label. -/
def longDecision (candle : NumCandle) (indicators : Option Indicators)
    (confidence : String) : Decision :=
  let range := candle.h - candle.l
  let entry := candle.h + range * (1 / 100)
  let stopLoss :=
    match indicators.bind Indicators.atr with
    | some a => candle.l - a.atr * (3 / 2)
    | none => candle.l - range * (15 / 100)
  let risk := entry - stopLoss
  ⟨"LONG", confidence, some entry, some stopLoss, some (entry + risk * (3 / 2)),
    some (entry + risk * (5 / 2)), some (entry + risk * 4), some "1:2.5"⟩

/-- SHORT decision of the bearish branch, symmetric to the LONG one. -/
def shortDecision (candle : NumCandle) (indicators : Option Indicators)
    (confidence : String) : Decision :=
  let range := candle.h - candle.l
  let entry := candle.l - range * (1 / 100)
  let stopLoss :=
    match indicators.bind Indicators.atr with
    | some a => candle.h + a.atr * (3 / 2)
    | none => candle.h + range * (15 / 100)
  let risk := stopLoss - entry
  ⟨"SHORT", confidence, some entry, some stopLoss, some (entry - risk * (3 / 2)),
    some (entry - risk * (5 / 2)), some (entry - risk * 4), some "1:2.5"⟩

/-- Body of `generateDecision` once the indicator snapshot has been
computed (or found unavailable). -/
def generateDecisionCore (patterns : List Pattern) (candle : NumCandle)
    (indicators : Option Indicators) : Decision :=
  if patterns = [] then
    if (match indicators with
        | some ind => ind.summary.sentiment != "NEUTRAL" && ind.summary.sentiment != "MIXED"
        | none => false) then
      ⟨"WAIT", "low", none, none, none, none, none, none⟩
    else ⟨"WAIT", "none", none, none, none, none, none, none⟩
  else
    if hasPat patterns "bullish" "strong" ||
        (hasPat patterns "bullish" "medium" && hasVolConfirm patterns) ||
        (hasPat patterns "bullish" "medium" && boostOf patterns indicators) then
      longDecision candle indicators
        (longConfidence (hasPat patterns "bullish" "strong")
          (hasPat patterns "bullish" "medium") (hasVolConfirm patterns)
          (boostOf patterns indicators) (conflictOf patterns indicators))
    else if hasPat patterns "bearish" "strong" ||
        (hasPat patterns "bearish" "medium" && hasVolConfirm patterns) ||
        (hasPat patterns "bearish" "medium" && boostOf patterns indicators) then
      shortDecision candle indicators
        (longConfidence (hasPat patterns "bearish" "strong")
          (hasPat patterns "bearish" "medium") (hasVolConfirm patterns)
          (boostOf patterns indicators) (conflictOf patterns indicators))
    else ⟨"WAIT", "low", none, none, none, none, none, none⟩

/-- `generateDecision(patterns, candle, allCandles)`: recompute the
indicator snapshot when at least 30 candles are available, else run on a
null snapshot. -/
def generateDecision (patterns : List Pattern) (candle : NumCandle)
    (allCandles : List NumCandle) : Decision :=
  generateDecisionCore patterns candle
    (if 30 ≤ allCandles.length then calculateAll allCandles else none)

/-! ### Decision levels (C7) and degraded-input behaviour (C4) -/

/-- C7.  Whenever the decision engine answers LONG, the trade levels follow
the fixed formulas: entry is 1% of the candle range above the high, the stop
is 1.5 ATR below the low when ATR is available and 15% of the range below
the low otherwise, the three targets sit at 1.5, 2.5 and 4 times the risk
above the entry, and the risk/reward label is the constant `1:2.5`; the
SHORT case is symmetric below the low. -/
theorem generateDecisionCore_levels (patterns : List Pattern) (candle : NumCandle)
    (indicators : Option Indicators) :
    ((generateDecisionCore patterns candle indicators).action = "LONG" →
      ∃ e sl,
        (generateDecisionCore patterns candle indicators).entry = some e ∧
        (generateDecisionCore patterns candle indicators).stopLoss = some sl ∧
        e = candle.h + (candle.h - candle.l) * (1 / 100) ∧
        sl = (match indicators.bind Indicators.atr with
          | some a => candle.l - a.atr * (3 / 2)
          | none => candle.l - (candle.h - candle.l) * (15 / 100)) ∧
        (generateDecisionCore patterns candle indicators).target1 = some (e + (e - sl) * (3 / 2)) ∧
        (generateDecisionCore patterns candle indicators).target2 = some (e + (e - sl) * (5 / 2)) ∧
        (generateDecisionCore patterns candle indicators).target3 = some (e + (e - sl) * 4) ∧
        (generateDecisionCore patterns candle indicators).riskReward = some "1:2.5") ∧
    ((generateDecisionCore patterns candle indicators).action = "SHORT" →
      ∃ e sl,
        (generateDecisionCore patterns candle indicators).entry = some e ∧
        (generateDecisionCore patterns candle indicators).stopLoss = some sl ∧
        e = candle.l - (candle.h - candle.l) * (1 / 100) ∧
        sl = (match indicators.bind Indicators.atr with
          | some a => candle.h + a.atr * (3 / 2)
          | none => candle.h + (candle.h - candle.l) * (15 / 100)) ∧
        (generateDecisionCore patterns candle indicators).target1 = some (e - (sl - e) * (3 / 2)) ∧
        (generateDecisionCore patterns candle indicators).target2 = some (e - (sl - e) * (5 / 2)) ∧
        (generateDecisionCore patterns candle indicators).target3 = some (e - (sl - e) * 4) ∧
        (generateDecisionCore patterns candle indicators).riskReward = some "1:2.5") := by
  by_cases hp : patterns = []
  · constructor <;> intro h <;> exfalso <;>
      · simp only [generateDecisionCore, if_pos hp] at h
        split at h <;> simp at h
  · by_cases hb : (hasPat patterns "bullish" "strong" ||
        (hasPat patterns "bullish" "medium" && hasVolConfirm patterns) ||
        (hasPat patterns "bullish" "medium" && boostOf patterns indicators)) = true
    · constructor
      · intro _
        simp only [generateDecisionCore, if_neg hp, if_pos hb]
        exact ⟨_, _, rfl, rfl, rfl, rfl, rfl, rfl, rfl, rfl⟩
      · intro h
        exfalso
        simp only [generateDecisionCore, if_neg hp, if_pos hb, longDecision] at h
        simp at h
    · by_cases hs : (hasPat patterns "bearish" "strong" ||
          (hasPat patterns "bearish" "medium" && hasVolConfirm patterns) ||
          (hasPat patterns "bearish" "medium" && boostOf patterns indicators)) = true
      · constructor
        · intro h
          exfalso
          simp only [generateDecisionCore, if_neg hp, if_neg hb, if_pos hs,
            shortDecision] at h
          simp at h
        · intro _
          simp only [generateDecisionCore, if_neg hp, if_neg hb, if_pos hs]
          exact ⟨_, _, rfl, rfl, rfl, rfl, rfl, rfl, rfl, rfl⟩
      · constructor <;> intro h <;> exfalso <;>
          · simp only [generateDecisionCore, if_neg hp, if_neg hb, if_neg hs] at h
            simp at h

/-- Strong bullish pattern list used to witness the LONG branch. -/
def bullPat : List Pattern := [⟨"Bullish Marubozu", "bullish", "strong"⟩]

/-- Strong bearish pattern list used to witness the SHORT branch. -/
def bearPat : List Pattern := [⟨"Bearish Marubozu", "bearish", "strong"⟩]

/-- Candle used to witness the decision levels. -/
def decC : NumCandle := ⟨0, 100, 110, 90, 105, 1⟩

/-- C7 witness: the level theorem applied at a concrete LONG decision (a
strong bullish pattern) and a concrete SHORT decision (a strong bearish
pattern), with no indicator snapshot. -/
theorem generateDecisionCore_levels_witness :
    ((generateDecisionCore bullPat decC none).action = "LONG" ∧
      ∃ e sl,
        (generateDecisionCore bullPat decC none).entry = some e ∧
        (generateDecisionCore bullPat decC none).stopLoss = some sl ∧
        e = decC.h + (decC.h - decC.l) * (1 / 100) ∧
        sl = (match (none : Option Indicators).bind Indicators.atr with
          | some a => decC.l - a.atr * (3 / 2)
          | none => decC.l - (decC.h - decC.l) * (15 / 100)) ∧
        (generateDecisionCore bullPat decC none).target1 = some (e + (e - sl) * (3 / 2)) ∧
        (generateDecisionCore bullPat decC none).target2 = some (e + (e - sl) * (5 / 2)) ∧
        (generateDecisionCore bullPat decC none).target3 = some (e + (e - sl) * 4) ∧
        (generateDecisionCore bullPat decC none).riskReward = some "1:2.5") ∧
    ((generateDecisionCore bearPat decC none).action = "SHORT" ∧
      ∃ e sl,
        (generateDecisionCore bearPat decC none).entry = some e ∧
        (generateDecisionCore bearPat decC none).stopLoss = some sl ∧
        e = decC.l - (decC.h - decC.l) * (1 / 100) ∧
        sl = (match (none : Option Indicators).bind Indicators.atr with
          | some a => decC.h + a.atr * (3 / 2)
          | none => decC.h + (decC.h - decC.l) * (15 / 100)) ∧
        (generateDecisionCore bearPat decC none).target1 = some (e - (sl - e) * (3 / 2)) ∧
        (generateDecisionCore bearPat decC none).target2 = some (e - (sl - e) * (5 / 2)) ∧
        (generateDecisionCore bearPat decC none).target3 = some (e - (sl - e) * 4) ∧
        (generateDecisionCore bearPat decC none).riskReward = some "1:2.5") :=
  ⟨⟨rfl, (generateDecisionCore_levels bullPat decC none).1 rfl⟩,
   ⟨rfl, (generateDecisionCore_levels bearPat decC none).2 rfl⟩⟩

/-- C4.  Degraded inputs: `calculateAll` is null below 30 candles; every
individual indicator (SMA, EMA, RSI, MACD, Stochastic, ADX, Bollinger
Bands, ATR) is null when its input is shorter than its required minimum
period; and on a series shorter than 30 candles `generateDecision` is the
total pattern-only decision computed on a null indicator snapshot. -/
theorem indicators_unavailable_below_min (candles allCandles : List NumCandle)
    (xs ys zs : List ℚ) (patterns : List Pattern) (candle : NumCandle)
    (p fp sp gp kp dp ap bp tp : Nat) (sd : ℚ)
    (h30 : candles.length < 30)
    (hp : xs.length < p)
    (hm : xs.length < sp + gp)
    (hst : xs.length < kp + dp)
    (ha : xs.length < 2 * ap)
    (hb : xs.length < bp)
    (ht : xs.length < tp + 1)
    (hg : allCandles.length < 30) :
    calculateAll candles = none ∧
    SMA xs p = none ∧
    EMA xs p = none ∧
    RSI xs p = none ∧
    MACD xs fp sp gp = none ∧
    Stochastic ys zs xs kp dp = none ∧
    ADX ys zs xs ap = none ∧
    BollingerBands xs bp sd = none ∧
    ATR ys zs xs tp = none ∧
    generateDecision patterns candle allCandles = generateDecisionCore patterns candle none := by
  refine ⟨?_, ?_, ?_, ?_, ?_, ?_, ?_, ?_, ?_, ?_⟩
  · unfold calculateAll
    rw [if_pos h30]
  · unfold SMA
    rw [if_pos hp]
  · unfold EMA
    rw [if_pos hp]
  · unfold RSI
    rw [if_pos (by omega)]
  · unfold MACD
    rw [if_pos hm]
  · unfold Stochastic
    rw [if_pos hst]
  · unfold ADX
    rw [if_pos ha]
  · unfold BollingerBands
    rw [if_pos hb]
  · unfold ATR
    rw [if_pos ht]
  · unfold generateDecision
    rw [if_neg (by omega)]

/-- C4 witness: the degraded-input theorem applied at the empty candle
series, a singleton data list and concrete periods. -/
theorem indicators_unavailable_below_min_witness :
    calculateAll [] = none ∧
    SMA [1] 2 = none ∧
    EMA [1] 2 = none ∧
    RSI [1] 2 = none ∧
    MACD [1] 12 26 9 = none ∧
    Stochastic [] [] [1] 14 3 = none ∧
    ADX [] [] [1] 14 = none ∧
    BollingerBands [1] 20 2 = none ∧
    ATR [] [] [1] 14 = none ∧
    generateDecision bullPat decC [] = generateDecisionCore bullPat decC none :=
  indicators_unavailable_below_min [] [] [1] [] [] bullPat decC
    2 12 26 9 14 3 14 20 14 2 (by decide) (by decide) (by decide) (by decide)
    (by decide) (by decide) (by decide) (by decide)

/-! ## Reconnection scheduling (`connectToBinance` and friends, lines
1913-1954, 2037-2075, 2102-2140, and the Redis `retryStrategy`, lines
31-41)

Each exchange `close` handler runs
`setTimeout(connectTo<exchange>, CONFIG.RECONNECT_DELAY)` unconditionally:
no retry counter exists, the delay never scales, and
`CONFIG.MAX_RECONNECT_ATTEMPTS` is declared but never read.  The only
backoff with attempt scaling and a cap in the source is the Redis client's
`retryStrategy`. -/

/-- `CONFIG.RECONNECT_DELAY` (milliseconds). -/
def RECONNECT_DELAY : Nat := 5000

/-- `CONFIG.MAX_RECONNECT_ATTEMPTS`: declared in the configuration, never
consulted anywhere in the source. -/
def MAX_RECONNECT_ATTEMPTS : Nat := 10

/-- Delay the Binance `close` handler passes to `setTimeout`, as a function
of the current retry count: the handler consults no counter, so the delay is
the constant `RECONNECT_DELAY` at every attempt. -/
def binanceReconnectDelay (attempt : Nat) : Nat :=
  RECONNECT_DELAY

/-- Delay the Coinbase `close` handler passes to `setTimeout`. -/
def coinbaseReconnectDelay (attempt : Nat) : Nat :=
  RECONNECT_DELAY

/-- Delay the Kraken `close` handler passes to `setTimeout`. -/
def krakenReconnectDelay (attempt : Nat) : Nat :=
  RECONNECT_DELAY

/-- Whether the Binance `close` handler schedules another reconnect at the
given retry count: it always does, no cap is enforced. -/
def binanceSchedulesReconnect (attempt : Nat) : Bool :=
  true

/-- The Redis `retryStrategy`: stop retrying after 3 attempts, else wait
`min(times * 200, 1000)` milliseconds. -/
def redisRetryDelay (times : Nat) : Option Nat :=
  if 3 < times then none else some (min (times * 200) 1000)

/-- C8 counterexample.  At retry count 2 the Binance connector schedules a
reconnect after 5000 ms, not `base_delay * min(attempt, 5) = 10000` ms, and
at retry count 11 (past `MAX_RECONNECT_ATTEMPTS = 10`) a reconnect is still
scheduled. -/
theorem reconnect_backoff_cex :
    binanceReconnectDelay 2 ≠ RECONNECT_DELAY * min 2 5 ∧
    binanceSchedulesReconnect (MAX_RECONNECT_ATTEMPTS + 1) = true := by
  decide

/-- C8 amended.  Every exchange connector reconnects after the fixed
`RECONNECT_DELAY` of 5000 ms at every retry count and never stops retrying
(`MAX_RECONNECT_ATTEMPTS` is declared but unused); the
`base_delay * min(attempt, 5)` delay with a retry cap exists only in the
Redis client's `retryStrategy`, with base delay 200 ms and cap 3. -/
theorem reconnect_fixed_delay (attempt : Nat) :
    binanceReconnectDelay attempt = 5000 ∧
    coinbaseReconnectDelay attempt = 5000 ∧
    krakenReconnectDelay attempt = 5000 ∧
    binanceSchedulesReconnect attempt = true ∧
    redisRetryDelay attempt = (if 3 < attempt then none else some (200 * min attempt 5)) := by
  refine ⟨rfl, rfl, rfl, rfl, ?_⟩
  unfold redisRetryDelay
  by_cases h : 3 < attempt
  · rw [if_pos h, if_pos h]
  · rw [if_neg h, if_neg h]
    have : min (attempt * 200) 1000 = 200 * min attempt 5 := by omega
    rw [this]

end Trading
